import Mathlib

/-!
Verification of the caikit runtime core spec: model loading orchestration,
backend dispatch, the dynamic batching engine, and the JSON-dict / protobuf
Struct conversion. The repository snapshot under verification ships only the
test suites (tests/runtime/model_management/test_model_loader.py,
tests/core/data_model/test_json_dict.py) and an unrelated data-model
declaration file; the implementation modules they exercise
(caikit/runtime/model_management/model_loader.py,
caikit/runtime/model_management/batcher.py,
caikit/core/data_model/json_dict.py) are not present, so the definitions
below are modelled from the specification's description of those modules and
checked against the observable contract the tests pin down.
-/

namespace Caikit

/-- Status codes of the runtime failure surface: each failure carries a
categorical code that the transport collaborator maps onto wire-level codes. -/
inductive StatusCode where
  | NOT_FOUND
  | INTERNAL
deriving DecidableEq, Repr

/-- A typed runtime failure: a categorical code plus a human-readable message. -/
structure CaikitRuntimeException where
  status_code : StatusCode
  message : String
deriving DecidableEq, Repr

/-- Substring containment: `sub` occurs contiguously inside `s`. -/
def strContains (s sub : String) : Prop :=
  ∃ pre post : String, s = pre ++ sub ++ post

/-- Modelled from the spec: the on-disk manifest record (the well-known
`config.yml` file) read by the Manifest Reader, holding an optionally recorded
model type and an optionally recorded backend override
(model_loader.py is absent from src; only its tests are present). -/
structure Manifest where
  modelType : Option String
  backendOverride : Option String
deriving DecidableEq, Repr

/-- Modelled from the spec: the loader's view of the filesystem at a supplied
path: the path is missing, or it is a directory (with an optional manifest
inside), or it is a single-file archive (`none` contents when the file is not
a valid archive, otherwise the optional manifest found after extraction). -/
inductive PathKind where
  | missing
  | directory (manifest : Option Manifest)
  | archive (contents : Option (Option Manifest))
deriving DecidableEq, Repr

/-- The manifest reachable from a path, if any: a directory's manifest, or the
manifest extracted from a valid archive. -/
def manifestOf : PathKind → Option Manifest
  | PathKind.missing => none
  | PathKind.directory m => m
  | PathKind.archive none => none
  | PathKind.archive (some m) => m

/-- Modelled from the spec: the Backend Registry: the set of registered model
types, a table from (modelType, backendKind) to the implementation class
registered for that pair, and each model type's declared ordered list of
supported backend kinds. -/
structure BackendRegistry where
  registered_types : List String
  backend_table : List ((String × String) × String)
  supported_order : String → List String

/-- Modelled from the spec: backend resolution. With an override, use the
implementation registered for (modelType, override) if one exists, else fail
with Internal; with no override, walk the model type's declared supported
order and use the first backend kind for which an implementation is
registered. -/
def resolveBackend (reg : BackendRegistry) (modelType : String)
    (override : Option String) : Except CaikitRuntimeException String :=
  match override with
  | some kind =>
    match reg.backend_table.lookup (modelType, kind) with
    | some implClass => Except.ok implClass
    | none => Except.error ⟨StatusCode.INTERNAL,
        "unsupported backend " ++ kind ++ " for type " ++ modelType⟩
  | none =>
    match (reg.supported_order modelType).findSome?
        (fun kind => reg.backend_table.lookup (modelType, kind)) with
    | some implClass => Except.ok implClass
    | none => Except.error ⟨StatusCode.INTERNAL,
        "no registered backend for type " ++ modelType⟩

/-- Modelled from the spec: one entry of the batching configuration: a batch
size and a collect delay in seconds (delays kept as exact rationals: the model
passes configured values through unchanged). -/
structure BatchEntry where
  size : Nat
  collect_delay_s : Rat
deriving DecidableEq, Repr

/-- Modelled from the spec: the batching configuration consumed by the loader:
a mapping from model type, or the literal key "default", to a batch entry. -/
structure BatchingConfig where
  entries : List (String × BatchEntry)
deriving DecidableEq, Repr

/-- Modelled from the spec: BatchConfig resolution order: exact ModelType
match, else the "default" entry, else none (no batching). -/
def lookupBatchConfig (cfg : BatchingConfig) (modelType : String) :
    Option BatchEntry :=
  match cfg.entries.lookup modelType with
  | some e => some e
  | none => cfg.entries.lookup "default"

/-- An instantiated module implementation, identified by its concrete
implementation class. -/
structure ModuleInstance where
  implClass : String
deriving DecidableEq, Repr

/-- Modelled from the spec: the module owned by a LoadedModel handle: either
the raw instantiated implementation, or that instance wrapped by a Batcher
carrying a batch size and a collect delay. -/
inductive RuntimeModule where
  | plain (m : ModuleInstance)
  | wrapped (m : ModuleInstance) (batch_size : Nat) (batch_collect_delay_s : Rat)
deriving DecidableEq, Repr

/-- The implementation class of the module, looking through a Batcher wrapper. -/
def RuntimeModule.implClass : RuntimeModule → String
  | RuntimeModule.plain m => m.implClass
  | RuntimeModule.wrapped m _ _ => m.implClass

/-- The effective batch size of the module: `none` for a raw, unwrapped
instance. -/
def RuntimeModule.batchSize? : RuntimeModule → Option Nat
  | RuntimeModule.plain _ => none
  | RuntimeModule.wrapped _ s _ => some s

/-- The effective collect delay of the module: `none` for a raw, unwrapped
instance. -/
def RuntimeModule.collectDelay? : RuntimeModule → Option Rat
  | RuntimeModule.plain _ => none
  | RuntimeModule.wrapped _ _ d => some d

/-- Modelled from the spec: the LoadedModel handle returned by a successful
load: id, type, path, the (possibly batch-wrapped) module, and a size metric
that the loader itself never computes. -/
structure LoadedModel where
  id : String
  type : String
  path : String
  module : RuntimeModule
  size : Nat
deriving DecidableEq, Repr

/-- The effective model type of a load: the explicit declared type argument if
given, else the type recorded in the manifest. -/
def effectiveType (declared : Option String) (manifestType : Option String) :
    Option String :=
  declared <|> manifestType

/-- Modelled from the spec: the manifest-resolved tail of the Model Loader's
load algorithm (model_loader.py is absent from src). An effective model type
that is absent or unregistered fails Internal naming the model id; otherwise
the backend is resolved, the implementation instantiated, wrapped with
batching when configured, and the handle returned with size zero. -/
def load_resolved (reg : BackendRegistry) (cfg : BatchingConfig)
    (model_id : String) (local_model_path : String) (m : Manifest)
    (model_type : Option String) (backendOverride : Option String) :
    Except CaikitRuntimeException LoadedModel :=
  match effectiveType model_type m.modelType with
  | none => Except.error ⟨StatusCode.INTERNAL,
      "Model " ++ model_id ++ " has no model type"⟩
  | some t =>
    if t ∈ reg.registered_types then
      match resolveBackend reg t (backendOverride <|> m.backendOverride) with
      | Except.error e => Except.error e
      | Except.ok implClass =>
        Except.ok ⟨model_id, t, local_model_path,
          (match lookupBatchConfig cfg t with
            | some e => RuntimeModule.wrapped ⟨implClass⟩ e.size e.collect_delay_s
            | none => RuntimeModule.plain ⟨implClass⟩), 0⟩
    else
      Except.error ⟨StatusCode.INTERNAL,
        "Model " ++ model_id ++ " has unregistered model type " ++ t⟩

/-- Modelled from the spec: the path-resolution front of the loader: a missing
path and an invalid archive fail with NotFound, a resolved directory without a
manifest fails with NotFound naming config.yml, and otherwise the load
continues from the manifest. -/
def load_model (reg : BackendRegistry) (cfg : BatchingConfig)
    (model_id : String) (local_model_path : String) (pk : PathKind)
    (model_type : Option String) (backendOverride : Option String) :
    Except CaikitRuntimeException LoadedModel :=
  match pk with
  | PathKind.missing =>
    Except.error ⟨StatusCode.NOT_FOUND,
      "Model " ++ model_id ++ " not found at local path " ++ local_model_path⟩
  | PathKind.archive none =>
    Except.error ⟨StatusCode.NOT_FOUND,
      "Model " ++ model_id ++ " extraction failed: " ++ "config.yml"
        ++ " not found under " ++ local_model_path⟩
  | _ =>
    match manifestOf pk with
    | none =>
      Except.error ⟨StatusCode.NOT_FOUND,
        "Model " ++ model_id ++ " has no " ++ "config.yml" ++ " under "
          ++ local_model_path⟩
    | some m =>
      load_resolved reg cfg model_id local_model_path m model_type backendOverride

/-- Modelled from the spec: a Batcher wrapping a loaded module
(batcher.py is absent from src). It records the configured batch size and
collect delay, and holds the wrapped module's batch entry point, which
consumes an ordered list of inputs and produces a list of outputs in one
invocation. -/
structure Batcher (α β : Type) where
  batch_size : Nat
  batch_collect_delay_s : Rat
  run_batch : List α → List β

/-- Modelled from the spec: the outcome delivered to one PendingCall: the
result for that call, or the failure delivered to every caller of the batch. -/
inductive BatchOutcome (β : Type) where
  | result (b : β)
  | failure (e : CaikitRuntimeException)
deriving DecidableEq, Repr

/-- Modelled from the spec: dispatch of one accumulated batch group. The
engine dequeues the whole group of pending inputs, invokes the wrapped
module's batch entry point exactly once on the ordered list, and, when the
output count matches the input count, delivers output element i to pending
call i; a count mismatch is a fatal Internal error delivered to every caller
in the batch. -/
def dispatchBatch {α β : Type} (b : Batcher α β) (inputs : List α) :
    List (BatchOutcome β) :=
  let outs := b.run_batch inputs
  if outs.length = inputs.length then
    outs.map BatchOutcome.result
  else
    inputs.map (fun _ => BatchOutcome.failure
      ⟨StatusCode.INTERNAL, "batch output count does not match input count"⟩)

/-- Modelled from the spec: the construction state of the process-wide
ModelLoader singleton: no instance yet, or the one instance already built. -/
inductive SingletonState where
  | empty
  | initialized
deriving DecidableEq, Repr

/-- Modelled from the spec: constructing the process-wide ModelLoader. The
first construction succeeds and records the instance; any construction
attempted while an instance already exists raises. -/
def constructModelLoader : SingletonState →
    Except CaikitRuntimeException SingletonState
  | SingletonState.empty => Except.ok SingletonState.initialized
  | SingletonState.initialized =>
    Except.error ⟨StatusCode.INTERNAL,
      "This class is a singleton: use get instance instead of constructing it"⟩

/-- Modelled from the spec: the generic JSON-like value type supporting
integers, floats, strings, booleans, null, ordered lists, and string-keyed
maps recursively (json_dict.py is absent from src; only its test is present).
Floats are kept as exact rationals: the conversions only move values around,
so no rounding behaviour is modelled. -/
inductive JsonValue where
  | intVal (n : Int)
  | floatVal (q : Rat)
  | strVal (s : String)
  | boolVal (b : Bool)
  | nullVal
  | listVal (l : List JsonValue)
  | dictVal (d : List (String × JsonValue))

/-- Modelled from the spec: a protobuf Struct field value. Protobuf's Struct
has a single numeric kind (number_value), so integers and floats share it;
the remaining kinds mirror struct_pb2.Value's oneof. -/
inductive PbValue where
  | null_value
  | number_value (q : Rat)
  | string_value (s : String)
  | bool_value (b : Bool)
  | struct_value (fields : List (String × PbValue))
  | list_value (values : List PbValue)

/-- Modelled from the spec: a protobuf Struct: a string-keyed map of field
values, modelled as an ordered association list. -/
structure PbStruct where
  fields : List (String × PbValue)

/-- The oneof kind tag of a protobuf Value, as reported by WhichOneof. -/
def PbValue.kind : PbValue → String
  | PbValue.null_value => "null_value"
  | PbValue.number_value _ => "number_value"
  | PbValue.string_value _ => "string_value"
  | PbValue.bool_value _ => "bool_value"
  | PbValue.struct_value _ => "struct_value"
  | PbValue.list_value _ => "list_value"

mutual

/-- Modelled from the spec: conversion of one JSON value to a protobuf Value:
ints and floats both become number_value, None becomes null_value, lists and
dicts convert recursively. -/
def jsonToPb : JsonValue → PbValue
  | JsonValue.intVal n => PbValue.number_value (n : Rat)
  | JsonValue.floatVal q => PbValue.number_value q
  | JsonValue.strVal s => PbValue.string_value s
  | JsonValue.boolVal b => PbValue.bool_value b
  | JsonValue.nullVal => PbValue.null_value
  | JsonValue.listVal l => PbValue.list_value (jsonListToPb l)
  | JsonValue.dictVal d => PbValue.struct_value (jsonDictToPb d)

/-- Elementwise conversion of a JSON list to protobuf Values. -/
def jsonListToPb : List JsonValue → List PbValue
  | [] => []
  | v :: rest => jsonToPb v :: jsonListToPb rest

/-- Entrywise conversion of a JSON dict to protobuf Struct fields. -/
def jsonDictToPb : List (String × JsonValue) → List (String × PbValue)
  | [] => []
  | (k, v) :: rest => (k, jsonToPb v) :: jsonDictToPb rest

end

mutual

/-- Modelled from the spec: conversion of one protobuf Value back to a JSON
value. A number_value returns as a numeric JSON value (protobuf erased the
int/float distinction), null_value as None, and containers recursively. -/
def pbToJson : PbValue → JsonValue
  | PbValue.null_value => JsonValue.nullVal
  | PbValue.number_value q => JsonValue.floatVal q
  | PbValue.string_value s => JsonValue.strVal s
  | PbValue.bool_value b => JsonValue.boolVal b
  | PbValue.struct_value fields => JsonValue.dictVal (pbDictToJson fields)
  | PbValue.list_value values => JsonValue.listVal (pbListToJson values)

/-- Elementwise conversion of protobuf Values back to JSON values. -/
def pbListToJson : List PbValue → List JsonValue
  | [] => []
  | v :: rest => pbToJson v :: pbListToJson rest

/-- Entrywise conversion of protobuf Struct fields back to a JSON dict. -/
def pbDictToJson : List (String × PbValue) → List (String × JsonValue)
  | [] => []
  | (k, v) :: rest => (k, pbToJson v) :: pbDictToJson rest

end

/-- Modelled from the spec: dict_to_struct from json_dict.py: convert a
string-keyed python dict to a protobuf Struct. -/
def dict_to_struct (d : List (String × JsonValue)) : PbStruct :=
  ⟨jsonDictToPb d⟩

/-- Modelled from the spec: struct_to_dict from json_dict.py: convert a
protobuf Struct back to a string-keyed python dict. -/
def struct_to_dict (s : PbStruct) : List (String × JsonValue) :=
  pbDictToJson s.fields

mutual

/-- Python's equality on JSON values: numbers compare by numeric value, so an
int and a float are equal when they denote the same number (Python's
1 == 1.0); everything else compares structurally. Python additionally treats
booleans as ints, so this relation is strictly finer than Python ==, which
only strengthens equalities proved with it. -/
def pyEqVal : JsonValue → JsonValue → Bool
  | JsonValue.intVal a, JsonValue.intVal b => a == b
  | JsonValue.intVal a, JsonValue.floatVal q => (a : Rat) == q
  | JsonValue.floatVal q, JsonValue.intVal a => q == (a : Rat)
  | JsonValue.floatVal a, JsonValue.floatVal b => a == b
  | JsonValue.strVal a, JsonValue.strVal b => a == b
  | JsonValue.boolVal a, JsonValue.boolVal b => a == b
  | JsonValue.nullVal, JsonValue.nullVal => true
  | JsonValue.listVal a, JsonValue.listVal b => pyEqList a b
  | JsonValue.dictVal a, JsonValue.dictVal b => pyEqDict a b
  | _, _ => false

/-- Python's equality on JSON lists: elementwise. -/
def pyEqList : List JsonValue → List JsonValue → Bool
  | [], [] => true
  | a :: arest, b :: brest => pyEqVal a b && pyEqList arest brest
  | _, _ => false

/-- Python's equality on JSON dicts, for dicts listed in the same key order:
entrywise key equality and value equality (Python dicts preserve insertion
order and the round trip preserves it, so this coincides with dict ==). -/
def pyEqDict : List (String × JsonValue) → List (String × JsonValue) → Bool
  | [], [] => true
  | (k1, v1) :: t1, (k2, v2) :: t2 => k1 == k2 && pyEqVal v1 v2 && pyEqDict t1 t2
  | _, _ => false

end

mutual

/-- Round trip of a single JSON value through a protobuf Value is Python
equality. -/
theorem pbRoundTripVal : ∀ v : JsonValue, pyEqVal (pbToJson (jsonToPb v)) v = true
  | JsonValue.intVal n => by simp [jsonToPb, pbToJson, pyEqVal]
  | JsonValue.floatVal q => by simp [jsonToPb, pbToJson, pyEqVal]
  | JsonValue.strVal s => by simp [jsonToPb, pbToJson, pyEqVal]
  | JsonValue.boolVal b => by simp [jsonToPb, pbToJson, pyEqVal]
  | JsonValue.nullVal => by simp [jsonToPb, pbToJson, pyEqVal]
  | JsonValue.listVal l => by
    simp only [jsonToPb, pbToJson, pyEqVal]
    exact pbRoundTripList l
  | JsonValue.dictVal d => by
    simp only [jsonToPb, pbToJson, pyEqVal]
    exact pbRoundTripDict d

/-- Round trip of a JSON list through protobuf Values is Python equality. -/
theorem pbRoundTripList : ∀ l : List JsonValue,
    pyEqList (pbListToJson (jsonListToPb l)) l = true
  | [] => by simp [jsonListToPb, pbListToJson, pyEqList]
  | v :: rest => by
    simp only [jsonListToPb, pbListToJson, pyEqList, Bool.and_eq_true]
    exact ⟨pbRoundTripVal v, pbRoundTripList rest⟩

/-- Round trip of a JSON dict through protobuf Struct fields is Python
equality. -/
theorem pbRoundTripDict : ∀ d : List (String × JsonValue),
    pyEqDict (pbDictToJson (jsonDictToPb d)) d = true
  | [] => by simp [jsonDictToPb, pbDictToJson, pyEqDict]
  | (k, v) :: rest => by
    simp only [jsonDictToPb, pbDictToJson, pyEqDict, Bool.and_eq_true, beq_self_eq_true]
    exact ⟨⟨trivial, pbRoundTripVal v⟩, pbRoundTripDict rest⟩

end

/-- Converting a JSON dict to Struct fields preserves the ordered key list. -/
theorem keys_jsonDictToPb : ∀ d : List (String × JsonValue),
    (jsonDictToPb d).map Prod.fst = d.map Prod.fst
  | [] => rfl
  | (k, v) :: rest => by
    simp only [jsonDictToPb, List.map_cons]
    exact congrArg (List.cons k) (keys_jsonDictToPb rest)

/-- Converting a JSON dict to Struct fields commutes with key lookup. -/
theorem lookup_jsonDictToPb : ∀ (d : List (String × JsonValue)) (k : String),
    (jsonDictToPb d).lookup k = (d.lookup k).map jsonToPb
  | [], _ => rfl
  | (k1, v) :: rest, k => by
    cases h : k == k1 with
    | true => simp [jsonDictToPb, List.lookup, h]
    | false => simp [jsonDictToPb, List.lookup, h, lookup_jsonDictToPb rest k]

/-- A string contains itself. -/
theorem strContains_self (s : String) : strContains s s :=
  ⟨"", "", by rw [String.empty_append, String.append_empty]⟩

/-- Containment is preserved by appending on the right. -/
theorem strContains_append_right {s sub : String} (t : String)
    (h : strContains s sub) : strContains (s ++ t) sub := by
  obtain ⟨pre, post, rfl⟩ := h
  exact ⟨pre, post ++ t, by rw [String.append_assoc (pre ++ sub) post t]⟩

/-- Containment is preserved by appending on the left. -/
theorem strContains_append_left {s sub : String} (t : String)
    (h : strContains s sub) : strContains (t ++ s) sub := by
  obtain ⟨pre, post, rfl⟩ := h
  exact ⟨t ++ pre, post, by
    rw [← String.append_assoc t (pre ++ sub) post, ← String.append_assoc t pre sub]⟩

/-- C1: for every batched handle and every group of N pending inputs with
1 ≤ N ≤ batch size, dispatching the group invokes the wrapped module's batch
entry point once on the ordered input list and yields exactly N results, the
i-th pending call receiving element i of that single invocation's output list
(stated under the spec's exact-count contract for the wrapped module's batch
output). -/
theorem batching_round_trip {α β : Type} (b : Batcher α β) (inputs : List α)
    (hpos : 1 ≤ inputs.length) (hcap : inputs.length ≤ b.batch_size)
    (hlen : (b.run_batch inputs).length = inputs.length) :
    dispatchBatch b inputs = (b.run_batch inputs).map BatchOutcome.result ∧
    (dispatchBatch b inputs).length = inputs.length ∧
    ∀ i : Nat, (dispatchBatch b inputs)[i]? =
      Option.map BatchOutcome.result (b.run_batch inputs)[i]? := by
  have hd : dispatchBatch b inputs = (b.run_batch inputs).map BatchOutcome.result := by
    simp [dispatchBatch, hlen]
  refine ⟨hd, ?_, ?_⟩
  · rw [hd, List.length_map]
    exact hlen
  · intro i
    rw [hd]
    exact List.getElem?_map ..

/-- Witness for C1 at a concrete batcher of capacity 4 over three inputs. -/
theorem batching_round_trip_witness :
    dispatchBatch ⟨4, 0, fun l => l.map (fun x => x + 1)⟩ [10, 20, 30] =
      (Batcher.run_batch ⟨4, 0, fun l => l.map (fun x => x + 1)⟩ [10, 20, 30]).map
        BatchOutcome.result ∧
    (dispatchBatch ⟨4, 0, fun l => l.map (fun x => x + 1)⟩ [10, 20, 30]).length =
      ([10, 20, 30] : List Nat).length ∧
    ∀ i : Nat,
      (dispatchBatch ⟨4, 0, fun l => l.map (fun x => x + 1)⟩ [10, 20, 30])[i]? =
      Option.map BatchOutcome.result
        (Batcher.run_batch ⟨4, 0, fun l => l.map (fun x => x + 1)⟩ [10, 20, 30])[i]? :=
  batching_round_trip ⟨4, 0, fun l => l.map (fun x => x + 1)⟩ [10, 20, 30]
    (by decide) (by decide) (by decide)

/-- C3: loading any model id from a path that does not exist fails with
NotFound (load returns an error, not a handle) and the failure message
contains the supplied model id. -/
theorem load_missing_path_not_found (reg : BackendRegistry) (cfg : BatchingConfig)
    (model_id local_model_path : String) (model_type backendOverride : Option String) :
    ∃ e, load_model reg cfg model_id local_model_path PathKind.missing
        model_type backendOverride = Except.error e ∧
      e.status_code = StatusCode.NOT_FOUND ∧ strContains e.message model_id := by
  refine ⟨_, rfl, rfl, ?_⟩
  exact strContains_append_right _ (strContains_append_right _
    (strContains_append_left _ (strContains_self model_id)))

/-- C4: loading from a path that exists but is a single file that is not a
valid archive fails with NotFound, and the message contains both the offending
path and the manifest file name config.yml. -/
theorem load_invalid_archive_not_found (reg : BackendRegistry) (cfg : BatchingConfig)
    (model_id local_model_path : String) (model_type backendOverride : Option String) :
    ∃ e, load_model reg cfg model_id local_model_path (PathKind.archive none)
        model_type backendOverride = Except.error e ∧
      e.status_code = StatusCode.NOT_FOUND ∧
      strContains e.message local_model_path ∧ strContains e.message "config.yml" := by
  refine ⟨_, rfl, rfl, ?_, ?_⟩
  · exact strContains_append_left _ (strContains_self local_model_path)
  · exact strContains_append_right _ (strContains_append_right _
      (strContains_append_left _ (strContains_self "config.yml")))

/-- C7: the process-wide ModelLoader is constructed once: constructing from
the empty state succeeds and records the instance, and every construction
attempted once an instance exists fails by raising an error. -/
theorem model_loader_no_double_instantiation :
    constructModelLoader SingletonState.empty =
      Except.ok SingletonState.initialized ∧
    ∃ e, constructModelLoader SingletonState.initialized = Except.error e :=
  ⟨rfl, ⟨_, rfl⟩⟩

/-- When a manifest is reachable from the path, the load is the
manifest-resolved load. -/
theorem load_model_eq_resolved {reg : BackendRegistry} {cfg : BatchingConfig}
    {model_id local_model_path : String} {pk : PathKind} {m : Manifest}
    {model_type backendOverride : Option String}
    (hm : manifestOf pk = some m) :
    load_model reg cfg model_id local_model_path pk model_type backendOverride =
      load_resolved reg cfg model_id local_model_path m model_type backendOverride := by
  cases pk with
  | missing => exact absurd hm (by simp [manifestOf])
  | directory mo =>
    cases mo with
    | none => exact absurd hm (by simp [manifestOf])
    | some m2 =>
      obtain rfl : m2 = m := by simpa [manifestOf] using hm
      rfl
  | archive c =>
    cases c with
    | none => exact absurd hm (by simp [manifestOf])
    | some mo =>
      cases mo with
      | none => exact absurd hm (by simp [manifestOf])
      | some m2 =>
        obtain rfl : m2 = m := by simpa [manifestOf] using hm
        rfl

/-- Closed form of a successful manifest-resolved load. -/
theorem load_resolved_eq_ok {reg : BackendRegistry} {cfg : BatchingConfig}
    {model_id local_model_path : String} {m : Manifest}
    {model_type backendOverride : Option String} {t implClass : String}
    (het : effectiveType model_type m.modelType = some t)
    (hreg : t ∈ reg.registered_types)
    (hres : resolveBackend reg t (backendOverride <|> m.backendOverride) =
      Except.ok implClass) :
    load_resolved reg cfg model_id local_model_path m model_type backendOverride =
      Except.ok ⟨model_id, t, local_model_path,
        (match lookupBatchConfig cfg t with
          | some e => RuntimeModule.wrapped ⟨implClass⟩ e.size e.collect_delay_s
          | none => RuntimeModule.plain ⟨implClass⟩), 0⟩ := by
  simp only [load_resolved, het, if_pos hreg, hres]

/-- Inversion of a successful manifest-resolved load. -/
theorem load_resolved_ok_inversion {reg : BackendRegistry} {cfg : BatchingConfig}
    {model_id local_model_path : String} {m : Manifest}
    {model_type backendOverride : Option String} {lm : LoadedModel}
    (h : load_resolved reg cfg model_id local_model_path m model_type backendOverride
      = Except.ok lm) :
    ∃ t implClass,
      effectiveType model_type m.modelType = some t ∧
      t ∈ reg.registered_types ∧
      resolveBackend reg t (backendOverride <|> m.backendOverride) =
        Except.ok implClass ∧
      lm = ⟨model_id, t, local_model_path,
        (match lookupBatchConfig cfg t with
          | some e => RuntimeModule.wrapped ⟨implClass⟩ e.size e.collect_delay_s
          | none => RuntimeModule.plain ⟨implClass⟩), 0⟩ := by
  unfold load_resolved at h
  split at h
  · exact Except.noConfusion h
  · rename_i t het
    split at h
    · rename_i hreg
      split at h
      · exact Except.noConfusion h
      · rename_i implClass hres
        injection h with h2
        exact ⟨t, implClass, het, hreg, hres, h2.symm⟩
    · exact Except.noConfusion h

/-- Inversion of a successful load: a manifest was found and the resolved load
succeeded. -/
theorem load_model_ok_inversion {reg : BackendRegistry} {cfg : BatchingConfig}
    {model_id local_model_path : String} {pk : PathKind}
    {model_type backendOverride : Option String} {lm : LoadedModel}
    (h : load_model reg cfg model_id local_model_path pk model_type backendOverride
      = Except.ok lm) :
    ∃ m t implClass,
      manifestOf pk = some m ∧
      effectiveType model_type m.modelType = some t ∧
      t ∈ reg.registered_types ∧
      resolveBackend reg t (backendOverride <|> m.backendOverride) =
        Except.ok implClass ∧
      lm = ⟨model_id, t, local_model_path,
        (match lookupBatchConfig cfg t with
          | some e => RuntimeModule.wrapped ⟨implClass⟩ e.size e.collect_delay_s
          | none => RuntimeModule.plain ⟨implClass⟩), 0⟩ := by
  have hres : ∃ m, manifestOf pk = some m ∧
      load_resolved reg cfg model_id local_model_path m model_type backendOverride
        = Except.ok lm := by
    cases pk with
    | missing => exact Except.noConfusion h
    | directory mo =>
      cases mo with
      | none => exact Except.noConfusion h
      | some m => exact ⟨m, rfl, h⟩
    | archive c =>
      cases c with
      | none => exact Except.noConfusion h
      | some mo =>
        cases mo with
        | none => exact Except.noConfusion h
        | some m => exact ⟨m, rfl, h⟩
  obtain ⟨m, hm, hok⟩ := hres
  obtain ⟨t, implClass, het, hreg, hback, hlm⟩ := load_resolved_ok_inversion hok
  exact ⟨m, t, implClass, hm, het, hreg, hback, hlm⟩

/-- C2: batching configuration resolution on every load: an exact entry for
the effective model type (the loaded handle's type) wraps the module with that
entry's batch size, else a "default" entry wraps it with the default entry's
batch size, else the handle's module is the raw, unwrapped instance. -/
theorem load_batching_config_resolution (reg : BackendRegistry)
    (cfg : BatchingConfig) (model_id local_model_path : String) (pk : PathKind)
    (model_type backendOverride : Option String) (lm : LoadedModel)
    (h : load_model reg cfg model_id local_model_path pk model_type
      backendOverride = Except.ok lm) :
    match cfg.entries.lookup lm.type, cfg.entries.lookup "default" with
    | some e, _ =>
      ∃ mi, lm.module = RuntimeModule.wrapped mi e.size e.collect_delay_s
    | none, some e =>
      ∃ mi, lm.module = RuntimeModule.wrapped mi e.size e.collect_delay_s
    | none, none => ∃ mi, lm.module = RuntimeModule.plain mi := by
  obtain ⟨m, t, implClass, hm, het, hreg, hres, hlm⟩ := load_model_ok_inversion h
  have hty : lm.type = t := by rw [hlm]
  have hmod : lm.module =
      (match lookupBatchConfig cfg t with
        | some e => RuntimeModule.wrapped ⟨implClass⟩ e.size e.collect_delay_s
        | none => RuntimeModule.plain ⟨implClass⟩) := by rw [hlm]
  rw [hty, hmod]
  cases hx : cfg.entries.lookup t with
  | some e =>
    simp only [hx]
    exact ⟨⟨implClass⟩, by simp [lookupBatchConfig, hx]⟩
  | none =>
    cases hd : cfg.entries.lookup "default" with
    | some e =>
      simp only [hx, hd]
      exact ⟨⟨implClass⟩, by simp [lookupBatchConfig, hx, hd]⟩
    | none =>
      simp only [hx, hd]
      exact ⟨⟨implClass⟩, by simp [lookupBatchConfig, hx, hd]⟩

/-- C5: when the effective model type (the declared type argument, else the
type recorded in the manifest) does not resolve to a registered type, load
fails with Internal and the message contains the model id. -/
theorem load_unregistered_type_internal (reg : BackendRegistry)
    (cfg : BatchingConfig) (model_id local_model_path : String) (pk : PathKind)
    (m : Manifest) (model_type backendOverride : Option String)
    (hm : manifestOf pk = some m)
    (hbad : ∀ t, effectiveType model_type m.modelType = some t →
      t ∉ reg.registered_types) :
    ∃ e, load_model reg cfg model_id local_model_path pk model_type
        backendOverride = Except.error e ∧
      e.status_code = StatusCode.INTERNAL ∧ strContains e.message model_id := by
  rw [load_model_eq_resolved hm]
  unfold load_resolved
  cases het : effectiveType model_type m.modelType with
  | none =>
    simp only [het]
    exact ⟨_, rfl, rfl,
      strContains_append_right _ (strContains_append_left _
        (strContains_self model_id))⟩
  | some t =>
    simp only [het, if_neg (hbad t het)]
    exact ⟨_, rfl, rfl,
      strContains_append_right _ (strContains_append_right _
        (strContains_append_left _ (strContains_self model_id)))⟩

/-- C6: for a model type with an implementation registered under a distinct
backend kind, resolving with that kind requested as the override yields the
factory registered for (modelType, override), and a load under that override
returns a handle whose module is an instance of the alternate implementation
class and not of the class the default resolution yields. -/
theorem load_backend_override (reg : BackendRegistry) (cfg : BatchingConfig)
    (model_id local_model_path : String) (pk : PathKind) (m : Manifest)
    (t kind altClass defaultClass : String)
    (hm : manifestOf pk = some m)
    (halt : reg.backend_table.lookup (t, kind) = some altClass)
    (hreg : t ∈ reg.registered_types)
    (hdef : resolveBackend reg t none = Except.ok defaultClass)
    (hne : altClass ≠ defaultClass) :
    resolveBackend reg t (some kind) = Except.ok altClass ∧
    ∃ lm, load_model reg cfg model_id local_model_path pk (some t) (some kind)
        = Except.ok lm ∧
      lm.module.implClass = altClass ∧ lm.module.implClass ≠ defaultClass := by
  have hres : resolveBackend reg t (some kind) = Except.ok altClass := by
    simp [resolveBackend, halt]
  refine ⟨hres, ?_⟩
  have het : effectiveType (some t) m.modelType = some t := rfl
  have hres2 : resolveBackend reg t ((some kind) <|> m.backendOverride) =
      Except.ok altClass := hres
  rw [load_model_eq_resolved hm, load_resolved_eq_ok het hreg hres2]
  refine ⟨_, rfl, ?_, ?_⟩
  · cases hlb : lookupBatchConfig cfg t <;>
      simp [hlb, RuntimeModule.implClass]
  · cases hlb : lookupBatchConfig cfg t <;>
      simpa [hlb, RuntimeModule.implClass] using hne

/-- C8: every successful load returns a handle whose id is the supplied model
id, whose type is the effective model type, whose path is the supplied path,
and whose size metric is zero (the loader never computes a size). The module
reference is total by construction in this embedding: the handle always owns
a RuntimeModule. -/
theorem load_model_handle_fields (reg : BackendRegistry) (cfg : BatchingConfig)
    (model_id local_model_path : String) (pk : PathKind)
    (model_type backendOverride : Option String) (lm : LoadedModel)
    (h : load_model reg cfg model_id local_model_path pk model_type
      backendOverride = Except.ok lm) :
    lm.id = model_id ∧ lm.path = local_model_path ∧ lm.size = 0 ∧
    ∃ m, manifestOf pk = some m ∧
      effectiveType model_type m.modelType = some lm.type := by
  obtain ⟨m, t, implClass, hm, het, hreg, hres, hlm⟩ := load_model_ok_inversion h
  subst hlm
  exact ⟨rfl, rfl, rfl, m, hm, het⟩

/-- C9: a model type configured with a batch size and a collect delay loads to
a batch-wrapped handle whose effective batch size equals the configured size
and whose effective collect delay equals the configured collectDelay value
exactly. -/
theorem load_batching_collect_delay (reg : BackendRegistry)
    (cfg : BatchingConfig) (model_id local_model_path : String) (pk : PathKind)
    (model_type backendOverride : Option String) (lm : LoadedModel)
    (t : String) (sz : Nat) (d : Rat)
    (hcfg : cfg.entries.lookup t = some ⟨sz, d⟩)
    (h : load_model reg cfg model_id local_model_path pk model_type
      backendOverride = Except.ok lm)
    (hty : lm.type = t) :
    lm.module.batchSize? = some sz ∧ lm.module.collectDelay? = some d := by
  obtain ⟨m, t2, implClass, hm, het, hreg, hres, hlm⟩ := load_model_ok_inversion h
  subst hlm
  have ht2 : t2 = t := hty
  subst ht2
  constructor <;>
    simp [lookupBatchConfig, hcfg, RuntimeModule.batchSize?,
      RuntimeModule.collectDelay?]

/-- A concrete backend registry for witnesses: a local sample block, a gadget
with both a distributed (MOCK) and a local implementation, and a batchable
block; every type's declared preference order is the local kind first. -/
def exampleRegistry : BackendRegistry :=
  ⟨["sample_block", "gadget", "fake_batch_block"],
   [(("sample_block", "LOCAL"), "SampleBlock"),
    (("gadget", "MOCK"), "DistributedGadget"),
    (("gadget", "LOCAL"), "SampleBlock"),
    (("fake_batch_block", "LOCAL"), "FakeBatchBlock")],
   fun _ => ["LOCAL"]⟩

/-- A concrete path for witnesses: a directory holding a manifest recording
neither a model type nor a backend override. -/
def examplePath : PathKind := PathKind.directory (some ⟨none, none⟩)

/-- A concrete batching configuration for witnesses: one exact entry of batch
size 10 and collect delay 0.01 seconds. -/
def exampleBatchConfig : BatchingConfig := ⟨[("fake_batch_block", ⟨10, 0.01⟩)]⟩

/-- Witness for C2 at a load whose type has an exact batching entry. -/
theorem load_batching_config_resolution_witness :
    match exampleBatchConfig.entries.lookup
        (⟨"load_with_batch", "fake_batch_block", "/models/any",
          RuntimeModule.wrapped ⟨"FakeBatchBlock"⟩ 10 0.01, 0⟩ : LoadedModel).type,
      exampleBatchConfig.entries.lookup "default" with
    | some e, _ =>
      ∃ mi, (⟨"load_with_batch", "fake_batch_block", "/models/any",
          RuntimeModule.wrapped ⟨"FakeBatchBlock"⟩ 10 0.01, 0⟩ : LoadedModel).module
        = RuntimeModule.wrapped mi e.size e.collect_delay_s
    | none, some e =>
      ∃ mi, (⟨"load_with_batch", "fake_batch_block", "/models/any",
          RuntimeModule.wrapped ⟨"FakeBatchBlock"⟩ 10 0.01, 0⟩ : LoadedModel).module
        = RuntimeModule.wrapped mi e.size e.collect_delay_s
    | none, none =>
      ∃ mi, (⟨"load_with_batch", "fake_batch_block", "/models/any",
          RuntimeModule.wrapped ⟨"FakeBatchBlock"⟩ 10 0.01, 0⟩ : LoadedModel).module
        = RuntimeModule.plain mi :=
  load_batching_config_resolution exampleRegistry exampleBatchConfig
    "load_with_batch" "/models/any" examplePath (some "fake_batch_block") none
    ⟨"load_with_batch", "fake_batch_block", "/models/any",
      RuntimeModule.wrapped ⟨"FakeBatchBlock"⟩ 10 0.01, 0⟩ rfl

/-- Witness for C5 at a load of an unregistered model type. -/
theorem load_unregistered_type_internal_witness :
    ∃ e, load_model ⟨[], [], fun _ => []⟩ ⟨[]⟩ "invalid-model" "/models/invalid"
        (PathKind.directory (some ⟨some "not_real", none⟩)) none none
        = Except.error e ∧
      e.status_code = StatusCode.INTERNAL ∧ strContains e.message "invalid-model" :=
  load_unregistered_type_internal ⟨[], [], fun _ => []⟩ ⟨[]⟩ "invalid-model"
    "/models/invalid" (PathKind.directory (some ⟨some "not_real", none⟩))
    ⟨some "not_real", none⟩ none none rfl (fun t _ => List.not_mem_nil t)

/-- Witness for C6 at the gadget type with a distributed MOCK registration. -/
theorem load_backend_override_witness :
    resolveBackend exampleRegistry "gadget" (some "MOCK")
      = Except.ok "DistributedGadget" ∧
    ∃ lm, load_model exampleRegistry ⟨[]⟩ "remote_gadget" "/models/gadget"
        examplePath (some "gadget") (some "MOCK") = Except.ok lm ∧
      lm.module.implClass = "DistributedGadget" ∧
      lm.module.implClass ≠ "SampleBlock" :=
  load_backend_override exampleRegistry ⟨[]⟩ "remote_gadget" "/models/gadget"
    examplePath ⟨none, none⟩ "gadget" "MOCK" "DistributedGadget" "SampleBlock"
    rfl rfl (by decide) rfl (by decide)

/-- Witness for C8 at a straightforward successful load. -/
theorem load_model_handle_fields_witness :
    (⟨"happy_load_test", "sample_block", "/models/happy",
      RuntimeModule.plain ⟨"SampleBlock"⟩, 0⟩ : LoadedModel).id
        = "happy_load_test" ∧
    (⟨"happy_load_test", "sample_block", "/models/happy",
      RuntimeModule.plain ⟨"SampleBlock"⟩, 0⟩ : LoadedModel).path
        = "/models/happy" ∧
    (⟨"happy_load_test", "sample_block", "/models/happy",
      RuntimeModule.plain ⟨"SampleBlock"⟩, 0⟩ : LoadedModel).size = 0 ∧
    ∃ m, manifestOf examplePath = some m ∧
      effectiveType (some "sample_block") m.modelType =
        some (⟨"happy_load_test", "sample_block", "/models/happy",
          RuntimeModule.plain ⟨"SampleBlock"⟩, 0⟩ : LoadedModel).type :=
  load_model_handle_fields exampleRegistry ⟨[]⟩ "happy_load_test"
    "/models/happy" examplePath (some "sample_block") none
    ⟨"happy_load_test", "sample_block", "/models/happy",
      RuntimeModule.plain ⟨"SampleBlock"⟩, 0⟩ rfl

/-- Witness for C9 at the configured collect delay of 0.01 seconds. -/
theorem load_batching_collect_delay_witness :
    (⟨"load_with_batch", "fake_batch_block", "/models/any",
      RuntimeModule.wrapped ⟨"FakeBatchBlock"⟩ 10 0.01, 0⟩
        : LoadedModel).module.batchSize? = some 10 ∧
    (⟨"load_with_batch", "fake_batch_block", "/models/any",
      RuntimeModule.wrapped ⟨"FakeBatchBlock"⟩ 10 0.01, 0⟩
        : LoadedModel).module.collectDelay? = some 0.01 :=
  load_batching_collect_delay exampleRegistry exampleBatchConfig
    "load_with_batch" "/models/any" examplePath (some "fake_batch_block") none
    ⟨"load_with_batch", "fake_batch_block", "/models/any",
      RuntimeModule.wrapped ⟨"FakeBatchBlock"⟩ 10 0.01, 0⟩
    "fake_batch_block" 10 0.01 rfl rfl rfl

/-- C10: for every string-keyed dict whose values are recursively ints,
floats, strings, booleans, None, lists or string-keyed dicts of such values
(with the distinct keys a Python dict has), converting it to a protobuf
Struct and back is the identity under Python value equality (protobuf's
single number kind returns ints as equal numeric values, and Python's ==
identifies 1 with 1.0), the resulting Struct has exactly the same keys as the
dict, and None values map to the protobuf null_value kind. -/
theorem dict_to_struct_to_dict (d : List (String × JsonValue))
    (hkeys : (d.map Prod.fst).Nodup) :
    pyEqDict (struct_to_dict (dict_to_struct d)) d = true ∧
    (dict_to_struct d).fields.map Prod.fst = d.map Prod.fst ∧
    ∀ k : String, d.lookup k = some JsonValue.nullVal →
      (dict_to_struct d).fields.lookup k = some PbValue.null_value := by
  refine ⟨pbRoundTripDict d, keys_jsonDictToPb d, ?_⟩
  intro k hk
  show (jsonDictToPb d).lookup k = some PbValue.null_value
  rw [lookup_jsonDictToPb d k, hk]
  rfl

/-- The dict exercised by the repository's json_dict round-trip test. -/
def rawDict : List (String × JsonValue) :=
  [("int_val", JsonValue.intVal 1),
   ("float_val", JsonValue.floatVal 0.42),
   ("str_val", JsonValue.strVal "asdf"),
   ("bool_val", JsonValue.boolVal false),
   ("null_val", JsonValue.nullVal),
   ("list_val", JsonValue.listVal
     [JsonValue.intVal 2, JsonValue.floatVal 3.14, JsonValue.strVal "qwer",
      JsonValue.boolVal true, JsonValue.nullVal,
      JsonValue.listVal
        [JsonValue.intVal 1, JsonValue.intVal 2, JsonValue.intVal 3],
      JsonValue.dictVal [("nested", JsonValue.strVal "val")]]),
   ("dict_val", JsonValue.dictVal [("yep", JsonValue.strVal "works")])]

/-- Witness for C10 at the test suite's dict of all value variants. -/
theorem dict_to_struct_to_dict_witness :
    pyEqDict (struct_to_dict (dict_to_struct rawDict)) rawDict = true ∧
    (dict_to_struct rawDict).fields.map Prod.fst = rawDict.map Prod.fst ∧
    ∀ k : String, rawDict.lookup k = some JsonValue.nullVal →
      (dict_to_struct rawDict).fields.lookup k = some PbValue.null_value :=
  dict_to_struct_to_dict rawDict (by decide)

end Caikit
